import Mathlib

/-!
Shallow embedding of `src/detect_spi_devices.py` (MAX6675 K-type thermocouple
detector over SPI bus 0, chip-select lines CS0 and CS1).

Modelling conventions:
* Python integers become `ℕ`; bit operations keep the source's shifts and masks.
* Python floats become exact rationals `ℚ`.  Every product the decoder forms
  (`counts * 0.25` with `counts ≤ 4095`) is exact in IEEE binary64, so the
  rational model agrees with the float computation on the Celsius value; the
  Fahrenheit formula is stated in the same idealised arithmetic the source uses.
* Side effects (GPIO drives, sleeps, SPI open/exchange/close) become an explicit
  event trace `List SpiEvent` returned next to the function's value.
* Exceptions raised by the spidev library become an `AcqOutcome` parameter that
  says which step of the acquisition failed; the `try/except/finally` of
  `detect_max6675` becomes a total function on that parameter.
-/

namespace DetectSpi

/-- `SPI_BUS = 0` (line 51). -/
def SPI_BUS : ℕ := 0

/-- `SPI_SPEED_HZ = 500_000` (line 52). -/
def SPI_SPEED_HZ : ℕ := 500000

/-- `SPI_MODE = 0b00` (line 53). -/
def SPI_MODE : ℕ := 0

/-- `CS_PINS = {0: 8, 1: 7}` (lines 56-59): BCM GPIO numbers for the CS lines.
The dictionary has exactly the keys 0 and 1, hence the `Fin 2` domain. -/
def CS_PINS : Fin 2 → ℕ
  | 0 => 8
  | 1 => 7

/-- `CONVERSION_TIME_S = 0.25` (line 62), in seconds. -/
def CONVERSION_TIME_S : ℚ := 0.25

/-- `CS_SETTLE_TIME_S = 0.002` (line 63), in seconds. -/
def CS_SETTLE_TIME_S : ℚ := 0.002

/-- One uppercase hexadecimal digit, as Python `%X` formatting prints it. -/
def hexDigitChar (n : ℕ) : Char :=
  if n < 10 then Char.ofNat (48 + n) else Char.ofNat (55 + n)

/-- Python `f"0x{raw:04X}"` (line 144) for a 16-bit word. -/
def format_raw_hex (raw : ℕ) : String :=
  "0x" ++ String.mk [hexDigitChar (raw / 4096 % 16), hexDigitChar (raw / 256 % 16),
    hexDigitChar (raw / 16 % 16), hexDigitChar (raw % 16)]

/-- Python `f"{raw:016b}"` (line 145) for a 16-bit word. -/
def format_raw_bin (raw : ℕ) : String :=
  String.mk ((List.range 16).map fun i => if raw / 2 ^ (15 - i) % 2 = 1 then '1' else '0')

/-- The dictionary returned by `parse_max6675` (lines 137-146). -/
structure Parsed where
  d15 : ℕ
  temp_counts : ℕ
  open_flag : ℕ
  device_id_bit : ℕ
  temp_c : ℚ
  temp_f : ℚ
  raw_hex : String
  raw_bin : String
  deriving Repr, DecidableEq

/-- `parse_max6675(raw)` (lines 119-146): decode the 16-bit MAX6675 response
word.  Total on all of `ℕ`; for 16-bit inputs the fields are the bit ranges
D15, D14-D3, D2, D1 of the word. -/
def parse_max6675 (raw : ℕ) : Parsed :=
  let d15 := (raw >>> 15) &&& 0x1
  let temp_counts := (raw >>> 3) &&& 0xFFF
  let open_flag := (raw >>> 2) &&& 0x1
  let device_id_bit := (raw >>> 1) &&& 0x1
  let temp_c : ℚ := temp_counts * 0.25
  let temp_f : ℚ := temp_c * 9.0 / 5.0 + 32.0
  { d15 := d15, temp_counts := temp_counts, open_flag := open_flag,
    device_id_bit := device_id_bit, temp_c := temp_c, temp_f := temp_f,
    raw_hex := format_raw_hex raw, raw_bin := format_raw_bin raw }

/-- One observable side effect of a line scan.  `gpioOut pin high` is
`GPIO.output(pin, HIGH/LOW)`; `sleep` is `time.sleep` (seconds); `spiOpen` is
the call `spi.open(bus, dev)`; `xfer2 tx rx` is `spi.xfer2(tx)` returning `rx`;
`spiCloseAttempt failed` is the unconditional `spi.close()` of the `finally`
block (line 269), with `failed` recording whether the close itself raised;
`gpioCleanup` is `GPIO.cleanup()` (line 78), which releases every channel back
to a high-impedance input and drives nothing. -/
inductive SpiEvent where
  | gpioOut (pin : ℕ) (high : Bool)
  | sleep (seconds : ℚ)
  | spiOpen (bus dev : ℕ)
  | xfer2 (tx rx : List ℕ)
  | spiCloseAttempt (failed : Bool)
  | gpioCleanup
  deriving Repr, DecidableEq

/-- `cs_high(cs_index)` (lines 81-82). -/
def cs_high (cs_index : Fin 2) : SpiEvent := .gpioOut (CS_PINS cs_index) true

/-- `cs_low(cs_index)` (lines 85-86). -/
def cs_low (cs_index : Fin 2) : SpiEvent := .gpioOut (CS_PINS cs_index) false

/-- `read_max6675_raw(spi, cs_index)` (lines 93-116): the acquisition protocol.
`b0, b1` are the two bytes the SPI exchange returns; the result is the ordered
effect trace together with the returned value `(raw_bytes[0] << 8) | raw_bytes[1]`. -/
def read_max6675_raw (cs_index : Fin 2) (b0 b1 : ℕ) : List SpiEvent × ℕ :=
  ([cs_high cs_index, .sleep CONVERSION_TIME_S, cs_low cs_index, .sleep CS_SETTLE_TIME_S,
    .xfer2 [0x00, 0x00] [b0, b1], cs_high cs_index],
   (b0 <<< 8) ||| b1)

/-- The status/notes/found/ok fields written by the classification chain of
`detect_max6675` (lines 205-247). -/
structure Classified where
  status : String
  notes : String
  device_found : Bool
  thermocouple_ok : Bool
  deriving Repr, DecidableEq

/-- Lines 205-247 of `detect_max6675`: the `if/elif/else` status classification
applied after a successful exchange.  `device_found` and `thermocouple_ok`
default to `false` (the dictionary initialisation, lines 172-173) in every
branch that does not assign them. -/
def classify_max6675 (raw : ℕ) (parsed : Parsed) : Classified :=
  if raw = 0xFFFF then
    { status := "NOT DETECTED",
      notes := "Response is 0xFFFF -- MISO is floating (all high). No MAX6675 on this CS line, or MISO needs a pull-up resistor.",
      device_found := false, thermocouple_ok := false }
  else if raw = 0x0000 then
    { status := "NOT DETECTED",
      notes := "Response is 0x0000 -- MISO is stuck low. Check wiring; MISO may be shorted to GND.",
      device_found := false, thermocouple_ok := false }
  else if parsed.d15 ≠ 0 then
    { status := "INVALID RESPONSE",
      notes := "D15 must always be 0 for MAX6675 but was 1 (raw=" ++ parsed.raw_hex ++ "). Check wiring or SPI mode settings.",
      device_found := false, thermocouple_ok := false }
  else if parsed.device_id_bit ≠ 0 then
    { status := "WRONG DEVICE",
      notes := "D1 (device ID) must be 0 for MAX6675 but was 1 (raw=" ++ parsed.raw_hex ++ "). A different device may be connected.",
      device_found := false, thermocouple_ok := false }
  else if parsed.open_flag = 1 then
    { status := "DETECTED -- THERMOCOUPLE OPEN",
      notes := "MAX6675 is responding correctly (D15=0, D1=0), but D2=1 means the thermocouple is open or not connected. Check that both K-type thermocouple wires are firmly connected.",
      device_found := true, thermocouple_ok := false }
  else
    { status := "DETECTED -- OK",
      notes := "Valid temperature reading received.",
      device_found := true, thermocouple_ok := true }

/-- Which exception, if any, the spidev calls of one line scan raise.
`ok b0 b1`: open, configuration and exchange all succeed and the exchange
returns bytes `b0, b1`.  `openPermissionError` / `openOSError`: `spi.open`
raises before anything is opened.  `noCsAttributeError`: `spi.open` succeeds
but the `spi.no_cs` attribute assignment raises `AttributeError` (line 255).
`exchangeOSError` / `exchangeOtherError`: the open succeeds and the failure
happens during the exchange inside `read_max6675_raw`, i.e. after CS has been
driven low. -/
inductive AcqOutcome where
  | ok (b0 b1 : ℕ)
  | openPermissionError
  | openOSError (msg : String)
  | noCsAttributeError
  | exchangeOSError (msg : String)
  | exchangeOtherError (msg : String)
  deriving Repr, DecidableEq

/-- The host environment one line scan runs against: whether `/dev/spidev0.0`
exists, which outcome the spidev calls have, and whether the final
`spi.close()` itself raises. -/
structure LineEnv where
  node_exists : Bool
  outcome : AcqOutcome
  close_fails : Bool
  deriving Repr, DecidableEq

/-- The result dictionary of `detect_max6675` (lines 160-176). -/
structure LineResult where
  cs_index : ℕ
  cs_label : String
  cs_gpio_pin : ℕ
  dev_node : String
  node_exists : Bool
  opened : Bool
  raw_hex : Option String
  raw_bin : Option String
  temp_c : Option ℚ
  temp_f : Option ℚ
  open_flag : Option ℕ
  device_found : Bool
  thermocouple_ok : Bool
  status : String
  notes : String
  deriving Repr, DecidableEq

/-- `dev_node = f"/dev/spidev{SPI_BUS}.0"` (line 159). -/
def dev_node : String := "/dev/spidev" ++ toString SPI_BUS ++ ".0"

/-- The freshly initialised result dictionary (lines 160-176). -/
def initial_result (cs_index : Fin 2) : LineResult :=
  { cs_index := cs_index.val
    cs_label := "CS" ++ toString cs_index.val
    cs_gpio_pin := CS_PINS cs_index
    dev_node := dev_node
    node_exists := false
    opened := false
    raw_hex := none, raw_bin := none, temp_c := none, temp_f := none, open_flag := none
    device_found := false
    thermocouple_ok := false
    status := "UNKNOWN"
    notes := "" }

/-- `detect_max6675(cs_index)` (lines 153-273): one whole line scan, returning
the result dictionary and the trace of hardware effects.  The node-existence
check (line 178) returns before any spidev object is used; otherwise
`spi.open(SPI_BUS, 0)` is attempted on every path and the `finally` block
attempts `spi.close()` on every path, swallowing a failing close. -/
def detect_max6675 (cs_index : Fin 2) (env : LineEnv) : LineResult × List SpiEvent :=
  let result := initial_result cs_index
  if env.node_exists = false then
    ({ result with
        status := "NO SPI NODE"
        notes := dev_node ++ " not found. Enable SPI in raspi-config or add \x27dtparam=spi=on\x27 to /boot/firmware/config.txt and reboot." },
     [])
  else
    let result := { result with node_exists := true }
    let closeEv : SpiEvent := .spiCloseAttempt env.close_fails
    match env.outcome with
    | .openPermissionError =>
        ({ result with
            status := "PERMISSION DENIED"
            notes := "Permission denied on " ++ dev_node ++ ". Run with sudo, or: sudo usermod -aG spi $USER  then log out and back in." },
         [.spiOpen SPI_BUS 0, closeEv])
    | .openOSError msg =>
        ({ result with
            status := "OS ERROR"
            notes := "OS error opening " ++ dev_node ++ ": " ++ msg },
         [.spiOpen SPI_BUS 0, closeEv])
    | .noCsAttributeError =>
        ({ result with
            opened := true
            status := "SPIDEV VERSION ERROR"
            notes := "Your spidev version may not support no_cs mode. Try: pip install --upgrade spidev" },
         [.spiOpen SPI_BUS 0, closeEv])
    | .exchangeOSError msg =>
        ({ result with
            opened := true
            status := "OS ERROR"
            notes := "OS error opening " ++ dev_node ++ ": " ++ msg },
         [.spiOpen SPI_BUS 0, cs_high cs_index, .sleep CONVERSION_TIME_S,
          cs_low cs_index, .sleep CS_SETTLE_TIME_S, closeEv])
    | .exchangeOtherError msg =>
        ({ result with
            opened := true
            status := "ERROR"
            notes := "Unexpected error: " ++ msg },
         [.spiOpen SPI_BUS 0, cs_high cs_index, .sleep CONVERSION_TIME_S,
          cs_low cs_index, .sleep CS_SETTLE_TIME_S, closeEv])
    | .ok b0 b1 =>
        let rd := read_max6675_raw cs_index b0 b1
        let parsed := parse_max6675 rd.2
        let c := classify_max6675 rd.2 parsed
        ({ result with
            opened := true
            raw_hex := some parsed.raw_hex
            raw_bin := some parsed.raw_bin
            open_flag := some parsed.open_flag
            temp_c := some parsed.temp_c
            temp_f := some parsed.temp_f
            device_found := c.device_found
            thermocouple_ok := c.thermocouple_ok
            status := c.status
            notes := c.notes },
         [.spiOpen SPI_BUS 0] ++ rd.1 ++ [closeEv])

/-- `results = [detect_max6675(0), detect_max6675(1)]` (lines 311-314). -/
def scan_lines (e0 e1 : LineEnv) : List LineResult :=
  [(detect_max6675 0 e0).1, (detect_max6675 1 e1).1]

/-- `gpio_setup()` (lines 70-74): each CS pin is configured as an output with
initial level HIGH. -/
def gpio_setup_events : List SpiEvent := [.gpioOut 8 true, .gpioOut 7 true]

/-- The hardware effect trace of `main`'s scan (lines 308-316): `gpio_setup()`,
the two line scans, then `gpio_cleanup()` in the `finally` block. -/
def main_scan_events (e0 e1 : LineEnv) : List SpiEvent :=
  gpio_setup_events ++ (detect_max6675 0 e0).2 ++ (detect_max6675 1 e1).2 ++ [.gpioCleanup]

/-- True of the events that drive the given GPIO pin. -/
def drives_pin (pin : ℕ) : SpiEvent → Bool
  | .gpioOut p _ => p = pin
  | _ => false

/-- Erases the pin argument of GPIO drive events; used to state that two line
scans differ only in which pin their CS drives target. -/
def erase_pin : SpiEvent → SpiEvent
  | .gpioOut _ high => .gpioOut 0 high
  | e => e

/-- True unless the event is an `spi.open` call with arguments other than
`(0, 0)`. -/
def open_args_are_bus0_dev0 : SpiEvent → Bool
  | .spiOpen b d => b = 0 && d = 0
  | _ => true

/-- C1: the status classifier applies its rules with the two literal sentinel
checks first: for every possible decoded field record, raw word `0xFFFF`
classifies as the floating-line absence branch and `0x0000` as the stuck-low
absence branch, and neither of these two inputs ever yields INVALID RESPONSE
or WRONG DEVICE — even though `0xFFFF` decodes with `d15 = 1` and
`device_id_bit = 1`, which would trigger those later rules. -/
theorem claim_C1_sentinel_precedence :
    (∀ p : Parsed, classify_max6675 0xFFFF p =
      { status := "NOT DETECTED",
        notes := "Response is 0xFFFF -- MISO is floating (all high). No MAX6675 on this CS line, or MISO needs a pull-up resistor.",
        device_found := false, thermocouple_ok := false }) ∧
    (∀ p : Parsed, classify_max6675 0x0000 p =
      { status := "NOT DETECTED",
        notes := "Response is 0x0000 -- MISO is stuck low. Check wiring; MISO may be shorted to GND.",
        device_found := false, thermocouple_ok := false }) ∧
    (parse_max6675 0xFFFF).d15 = 1 ∧ (parse_max6675 0xFFFF).device_id_bit = 1 ∧
    (∀ p : Parsed, (classify_max6675 0xFFFF p).status ≠ "INVALID RESPONSE" ∧
      (classify_max6675 0xFFFF p).status ≠ "WRONG DEVICE" ∧
      (classify_max6675 0x0000 p).status ≠ "INVALID RESPONSE" ∧
      (classify_max6675 0x0000 p).status ≠ "WRONG DEVICE") ∧
    (∀ i : Fin 2, ∀ c : Bool,
      (detect_max6675 i ⟨true, .ok 0xFF 0xFF, c⟩).1.status = "NOT DETECTED" ∧
      (detect_max6675 i ⟨true, .ok 0x00 0x00, c⟩).1.status = "NOT DETECTED") := by
  refine ⟨fun p => ?_, fun p => ?_, by decide, by decide, fun p => ?_, fun i c => ?_⟩
  · simp [classify_max6675]
  · simp [classify_max6675]
  · refine ⟨?_, ?_, ?_, ?_⟩ <;> simp [classify_max6675]
  · fin_cases i <;> cases c <;> exact ⟨rfl, rfl⟩

/-- C2 counterexample: the claim that the raw words `0xFFFF` and `0x0000` are
assigned two distinct status values is false on the code — both sentinel words
receive the single status string "NOT DETECTED", at the classifier as well as
in the final line result. -/
theorem claim_C2_counterexample :
    (classify_max6675 0xFFFF (parse_max6675 0xFFFF)).status
      = (classify_max6675 0x0000 (parse_max6675 0x0000)).status ∧
    (classify_max6675 0xFFFF (parse_max6675 0xFFFF)).status = "NOT DETECTED" ∧
    (detect_max6675 0 ⟨true, .ok 0xFF 0xFF, false⟩).1.status
      = (detect_max6675 0 ⟨true, .ok 0x00 0x00, false⟩).1.status := by
  exact ⟨rfl, rfl, rfl⟩

/-- C2 amended: the classifier takes two distinct branches for `0xFFFF`
(floating line) and `0x0000` (stuck-low line) and gives them distinct
diagnostic notes, but both branches assign the same status string
"NOT DETECTED"; the two wiring faults are distinguished only by the notes
field, not by the status value. -/
theorem claim_C2_amended_distinct_notes :
    (classify_max6675 0xFFFF (parse_max6675 0xFFFF)).status = "NOT DETECTED" ∧
    (classify_max6675 0x0000 (parse_max6675 0x0000)).status = "NOT DETECTED" ∧
    (classify_max6675 0xFFFF (parse_max6675 0xFFFF)).notes
      ≠ (classify_max6675 0x0000 (parse_max6675 0x0000)).notes ∧
    (classify_max6675 0xFFFF (parse_max6675 0xFFFF)).notes
      = "Response is 0xFFFF -- MISO is floating (all high). No MAX6675 on this CS line, or MISO needs a pull-up resistor." ∧
    (classify_max6675 0x0000 (parse_max6675 0x0000)).notes
      = "Response is 0x0000 -- MISO is stuck low. Check wiring; MISO may be shorted to GND." := by
  exact ⟨rfl, rfl, by decide, rfl, rfl⟩

/-- C3: `parse_max6675` is a total function of the raw word (stated over all
of `ℕ`, hence in particular over all 65536 16-bit words; determinism is
inherent in it being a function): `d15` is bit 15, `temp_counts` is the
12-bit field of bits 14-3 and is below 4096, `open_flag` is bit 2,
`device_id_bit` is bit 1, the Celsius value is exactly `temp_counts * 1/4`,
and the Fahrenheit value is `temp_c * 9 / 5 + 32`; on the concrete word
`0x0C98` the count is 403 and the Celsius value 100.75. -/
theorem claim_C3_decoder_fields (raw : ℕ) :
    (parse_max6675 raw).d15 = raw / 2 ^ 15 % 2 ∧
    (parse_max6675 raw).temp_counts = raw / 2 ^ 3 % 2 ^ 12 ∧
    (parse_max6675 raw).temp_counts < 4096 ∧
    (parse_max6675 raw).open_flag = raw / 2 ^ 2 % 2 ∧
    (parse_max6675 raw).device_id_bit = raw / 2 ^ 1 % 2 ∧
    (parse_max6675 raw).temp_c = ((parse_max6675 raw).temp_counts : ℚ) * (1 / 4) ∧
    (parse_max6675 raw).temp_f = (parse_max6675 raw).temp_c * 9 / 5 + 32 ∧
    (parse_max6675 0x0C98).temp_counts = 403 ∧
    (parse_max6675 0x0C98).temp_c = 100.75 := by
  have hmask : (0xFFF : ℕ) = 2 ^ 12 - 1 := by norm_num
  refine ⟨?_, ?_, ?_, ?_, ?_, ?_, ?_, by decide, ?_⟩
  · simp [parse_max6675, Nat.shiftRight_eq_div_pow, Nat.and_one_is_mod]
  · simp only [parse_max6675]
    rw [hmask, Nat.and_pow_two_sub_one_eq_mod, Nat.shiftRight_eq_div_pow]
  · simp only [parse_max6675]
    rw [hmask, Nat.and_pow_two_sub_one_eq_mod]
    exact Nat.mod_lt _ (by norm_num)
  · simp [parse_max6675, Nat.shiftRight_eq_div_pow, Nat.and_one_is_mod]
  · simp [parse_max6675, Nat.shiftRight_eq_div_pow, Nat.and_one_is_mod]
  · norm_num [parse_max6675]
  · norm_num [parse_max6675]
  · norm_num [parse_max6675, show (3224 >>> 3 &&& 4095 : ℕ) = 403 from by decide]

/-- C4: for every CS index and every pair of bytes the exchange returns, the
acquisition performs exactly the ordered effect sequence CS-high, conversion
wait, CS-low, settle wait, one two-byte exchange, CS-high, and returns the
big-endian combination `b0 * 256 + b1`; the conversion wait is the constant
0.25 s, which is at least the 220 ms datasheet maximum. -/
theorem claim_C4_acquisition_sequence (i : Fin 2) (b0 b1 : Fin 256) :
    read_max6675_raw i b0.val b1.val =
      ([.gpioOut (CS_PINS i) true, .sleep CONVERSION_TIME_S, .gpioOut (CS_PINS i) false,
        .sleep CS_SETTLE_TIME_S, .xfer2 [0x00, 0x00] [b0.val, b1.val],
        .gpioOut (CS_PINS i) true],
       b0.val * 256 + b1.val) ∧
    CONVERSION_TIME_S = 1 / 4 ∧ (22 / 100 : ℚ) ≤ CONVERSION_TIME_S ∧
    CS_SETTLE_TIME_S = 2 / 1000 := by
  refine ⟨?_, by norm_num [CONVERSION_TIME_S], by norm_num [CONVERSION_TIME_S],
    by norm_num [CS_SETTLE_TIME_S]⟩
  have h2 : b1.val < 2 ^ 8 := by have := b1.isLt; omega
  simp only [read_max6675_raw, cs_high, cs_low, Prod.mk.injEq, and_true, true_and]
  rw [Nat.shiftLeft_eq, Nat.mul_comm, ← Nat.mul_add_lt_is_or h2 b0.val]

/-- C5: when the device node is absent, the line scan short-circuits to the
status "NO SPI NODE" with no bus open and no SPI or GPIO effect at all —
the acquisition sequence is never invoked, whatever outcome the hardware
would have produced. -/
theorem claim_C5_no_node_short_circuit (i : Fin 2) (o : AcqOutcome) (c : Bool) :
    (detect_max6675 i ⟨false, o, c⟩).1.status = "NO SPI NODE" ∧
    (detect_max6675 i ⟨false, o, c⟩).1.node_exists = false ∧
    (detect_max6675 i ⟨false, o, c⟩).1.opened = false ∧
    (detect_max6675 i ⟨false, o, c⟩).2 = [] := by
  exact ⟨rfl, rfl, rfl, rfl⟩

/-- C6: the scan always produces exactly two line results, in index order 0
then 1; each line's result depends only on that line's own environment (so a
failure on one line can never prevent or change the scan of the other, and no
failure escalates past the per-line boundary — the scan is a total function of
the two environments); concretely, line 0 hitting a permission failure still
leaves line 1 classified "DETECTED -- OK" from a valid reading. -/
theorem claim_C6_two_results_fault_isolation (e0 e0sub e1 e1sub : LineEnv) :
    (scan_lines e0 e1).length = 2 ∧
    ((scan_lines e0 e1)[0]?).map LineResult.cs_index = some 0 ∧
    ((scan_lines e0 e1)[1]?).map LineResult.cs_index = some 1 ∧
    (scan_lines e0 e1)[1]? = (scan_lines e0sub e1)[1]? ∧
    (scan_lines e0 e1)[0]? = (scan_lines e0 e1sub)[0]? ∧
    ((scan_lines ⟨true, .openPermissionError, false⟩
        ⟨true, .ok 0x0C 0x98, false⟩)[0]?).map LineResult.status
      = some "PERMISSION DENIED" ∧
    ((scan_lines ⟨true, .openPermissionError, false⟩
        ⟨true, .ok 0x0C 0x98, false⟩)[1]?).map LineResult.status
      = some "DETECTED -- OK" := by
  have hidx : ∀ (j : Fin 2) (env : LineEnv),
      (detect_max6675 j env).1.cs_index = j.val := by
    intro j env
    obtain ⟨ne, o, c⟩ := env
    cases ne <;> cases o <;> rfl
  refine ⟨rfl, ?_, ?_, rfl, rfl, rfl, rfl⟩
  · simp [scan_lines, hidx]
  · simp [scan_lines, hidx]

/-- C7 counterexample: the claimed three-status failure taxonomy is not
exhaustive — an `AttributeError` while configuring `no_cs` mode is an
acquisition failure the code maps to the status "SPIDEV VERSION ERROR",
which is none of PERMISSION DENIED, OS ERROR or ERROR. -/
theorem claim_C7_counterexample :
    (detect_max6675 0 ⟨true, .noCsAttributeError, false⟩).1.status
      = "SPIDEV VERSION ERROR" ∧
    (detect_max6675 0 ⟨true, .noCsAttributeError, false⟩).1.status
      ≠ "PERMISSION DENIED" ∧
    (detect_max6675 0 ⟨true, .noCsAttributeError, false⟩).1.status ≠ "OS ERROR" ∧
    (detect_max6675 0 ⟨true, .noCsAttributeError, false⟩).1.status ≠ "ERROR" := by
  exact ⟨rfl, by decide, by decide, by decide⟩

/-- C7 amended: the per-line failure taxonomy has four statuses, not three: a
permission failure on open yields "PERMISSION DENIED"; an OS-level failure of
the open or of the exchange yields "OS ERROR" carrying the underlying fault
description in the notes; an `AttributeError` from a spidev without `no_cs`
support yields "SPIDEV VERSION ERROR"; and every other failure yields the
generic "ERROR" with a description. -/
theorem claim_C7_amended_taxonomy (i : Fin 2) (msg : String) (c : Bool) :
    (detect_max6675 i ⟨true, .openPermissionError, c⟩).1.status
      = "PERMISSION DENIED" ∧
    (detect_max6675 i ⟨true, .openOSError msg, c⟩).1.status = "OS ERROR" ∧
    (detect_max6675 i ⟨true, .openOSError msg, c⟩).1.notes
      = "OS error opening /dev/spidev0.0: " ++ msg ∧
    (detect_max6675 i ⟨true, .exchangeOSError msg, c⟩).1.status = "OS ERROR" ∧
    (detect_max6675 i ⟨true, .exchangeOSError msg, c⟩).1.notes
      = "OS error opening /dev/spidev0.0: " ++ msg ∧
    (detect_max6675 i ⟨true, .noCsAttributeError, c⟩).1.status
      = "SPIDEV VERSION ERROR" ∧
    (detect_max6675 i ⟨true, .exchangeOtherError msg, c⟩).1.status = "ERROR" ∧
    (detect_max6675 i ⟨true, .exchangeOtherError msg, c⟩).1.notes
      = "Unexpected error: " ++ msg := by
  exact ⟨rfl, rfl, rfl, rfl, rfl, rfl, rfl, rfl⟩

/-- C8 counterexample: the CS line does NOT return to its idle-high state when
an earlier step of the read failed — when line 0's SPI exchange fails after CS
was driven low, the last drive of its CS pin (BCM GPIO 8) across the entire
session (setup, both line scans, `GPIO.cleanup()` teardown) is the LOW drive;
`GPIO.cleanup()` only releases the channel and drives nothing. -/
theorem claim_C8_counterexample :
    ((main_scan_events ⟨true, .exchangeOSError "xfer failed", false⟩
        ⟨true, .ok 0x00 0x00, false⟩).filter (drives_pin 8)).getLast?
      = some (.gpioOut 8 false) ∧
    (detect_max6675 0 ⟨true, .exchangeOSError "xfer failed", false⟩).1.status
      = "OS ERROR" := by
  exact ⟨by decide, rfl⟩

/-- C8 amended: on every exit path of a line's acquisition the bus close is
attempted unconditionally as the last effect, and a failure of the close
itself is swallowed — the result is identical whether or not the close fails;
after a successful read the CS line is driven back idle-high before the close;
but when the exchange itself fails, no CS-high drive follows the CS-low drive
(the line is left asserted and teardown merely releases the GPIO). -/
theorem claim_C8_amended_close_always (i : Fin 2) (o : AcqOutcome) (c : Bool)
    (b0 b1 : ℕ) (msg : String) :
    ((detect_max6675 i ⟨true, o, c⟩).2).getLast? = some (.spiCloseAttempt c) ∧
    (detect_max6675 i ⟨true, o, true⟩).1 = (detect_max6675 i ⟨true, o, false⟩).1 ∧
    (detect_max6675 i ⟨false, o, true⟩).1 = (detect_max6675 i ⟨false, o, false⟩).1 ∧
    (detect_max6675 i ⟨true, .ok b0 b1, c⟩).2
      = [.spiOpen 0 0, .gpioOut (CS_PINS i) true, .sleep CONVERSION_TIME_S,
         .gpioOut (CS_PINS i) false, .sleep CS_SETTLE_TIME_S,
         .xfer2 [0x00, 0x00] [b0, b1], .gpioOut (CS_PINS i) true,
         .spiCloseAttempt c] ∧
    (detect_max6675 i ⟨true, .exchangeOSError msg, c⟩).2
      = [.spiOpen 0 0, .gpioOut (CS_PINS i) true, .sleep CONVERSION_TIME_S,
         .gpioOut (CS_PINS i) false, .sleep CS_SETTLE_TIME_S,
         .spiCloseAttempt c] := by
  refine ⟨?_, ?_, ?_, rfl, rfl⟩
  · cases o <;> rfl
  · cases o <;> rfl
  · rfl

/-- C9: implicit result-record invariant: for every environment,
`device_found` is true exactly when the status is one of the two detected
statuses, `thermocouple_ok` is true exactly when the status is
"DETECTED -- OK", and after any successful exchange the raw word (hex and
binary renderings), temperatures and open flag are all populated, whatever
status classification follows. -/
theorem claim_C9_result_invariants (i : Fin 2) (env : LineEnv) (b0 b1 : ℕ)
    (c : Bool) :
    ((detect_max6675 i env).1.device_found = true ↔
      ((detect_max6675 i env).1.status = "DETECTED -- OK" ∨
       (detect_max6675 i env).1.status = "DETECTED -- THERMOCOUPLE OPEN")) ∧
    ((detect_max6675 i env).1.thermocouple_ok = true ↔
      (detect_max6675 i env).1.status = "DETECTED -- OK") ∧
    ((detect_max6675 i ⟨true, .ok b0 b1, c⟩).1.raw_hex ≠ none ∧
     (detect_max6675 i ⟨true, .ok b0 b1, c⟩).1.raw_bin ≠ none ∧
     (detect_max6675 i ⟨true, .ok b0 b1, c⟩).1.temp_c ≠ none ∧
     (detect_max6675 i ⟨true, .ok b0 b1, c⟩).1.temp_f ≠ none ∧
     (detect_max6675 i ⟨true, .ok b0 b1, c⟩).1.open_flag ≠ none) := by
  obtain ⟨ne, o, cf⟩ := env
  refine ⟨?_, ?_, by simp [detect_max6675], by simp [detect_max6675],
    by simp [detect_max6675], by simp [detect_max6675], by simp [detect_max6675]⟩ <;>
    (cases ne <;> cases o <;>
      simp [detect_max6675, classify_max6675, initial_result] <;>
      split_ifs <;> simp_all)

/-- C10: every line scan checks and opens the one device node
`/dev/spidev0.0`: the node path, the recorded existence/open flags, the
resulting status, and the entire effect trace up to the pin number of the CS
drives are independent of the CS index; only the GPIO pin driven for chip
select differs (8 for CS0, 7 for CS1). -/
theorem claim_C10_single_node_both_lines (i : Fin 2) (env : LineEnv) :
    (detect_max6675 i env).1.dev_node = "/dev/spidev0.0" ∧
    (detect_max6675 i env).1.node_exists = (detect_max6675 0 env).1.node_exists ∧
    (detect_max6675 i env).1.opened = (detect_max6675 0 env).1.opened ∧
    (detect_max6675 i env).1.status = (detect_max6675 0 env).1.status ∧
    ((detect_max6675 i env).2.map erase_pin)
      = ((detect_max6675 0 env).2.map erase_pin) ∧
    ((detect_max6675 i env).2.all open_args_are_bus0_dev0) = true ∧
    (detect_max6675 i env).1.cs_gpio_pin = CS_PINS i ∧
    CS_PINS 0 = 8 ∧ CS_PINS 1 = 7 := by
  obtain ⟨ne, o, cf⟩ := env
  fin_cases i <;> cases ne <;> cases o <;>
    exact ⟨rfl, rfl, rfl, rfl, rfl, rfl, rfl, rfl, rfl⟩

end DetectSpi
